import Mathlib

/-!
Shallow embedding of `src/basics/gemini.py` ("PromptRelay"), a linear script:

```python
api = os.environ.get("GEMINI_API_KEY")
print(api)
client = genai.Client()
prompt = input()
response = client.models.generate_content(model="gemini-2.5-flash", contents=prompt)
with open("content.md", "w") as file:
    file.write(response.text)
```

The process environment, standard input, the external client library and the
remote service are modelled as parameters of a `World`; the filesystem is a
map from file names to optional contents.  `run` executes the six statements
in source order, recording the values printed to standard output, the
(client, request) pair actually submitted to the remote service, the final
filesystem, and the result (normal completion or an uncaught fault).
-/

namespace PromptRelay

/-- A process environment: variable names to optional values
(`os.environ.get` returns `None` for an unset variable). -/
abbrev Env := String → Option String

/-- A filesystem: file names to optional contents (absent = no such file). -/
abbrev FS := String → Option String

/-- The client object of the external library (`genai.Client`), carrying the
credential it is bound to (absent when no credential is available). -/
structure Client where
  apiKey : Option String
deriving DecidableEq, Repr

/-- A generation request: the fixed model identifier and the prompt contents,
as passed to `client.models.generate_content`. -/
structure Request where
  model : String
  contents : String
deriving DecidableEq, Repr

/-- A remote response; its `text` payload may be absent (`None` in Python)
rather than a string. -/
structure Response where
  text : Option String
deriving DecidableEq, Repr

/-- The uncaught Python exceptions the script can die with. -/
inductive Fault where
  /-- `input()` at end of file. -/
  | eofError : Fault
  /-- failure inside `genai.Client()` construction. -/
  | clientError : String → Fault
  /-- network / service failure inside `generate_content`. -/
  | networkError : String → Fault
  /-- `file.write(None)`: writing an absent payload. -/
  | typeError : Fault
  /-- I/O failure of the file write itself. -/
  | writeError : Fault
deriving DecidableEq, Repr

/-- One run's external circumstances: the environment, the standard-input
stream, whether the library's client construction faults, the remote
service's behaviour (the mock of `generate_content`), and whether the
file write itself faults. -/
structure World where
  env : Env
  stdin : String
  ctorFault : Option String
  remote : Client → Request → Except String Response
  writeFault : Bool

/-- Everything observable about one run: the values printed to standard
output (in order), the (client, request) pair submitted to the remote
service (absent when execution died earlier), the final filesystem, and
normal completion or the propagated fault. -/
structure RunOutcome where
  stdout : List (Option String)
  submitted : Option (Client × Request)
  fs : FS
  result : Except Fault Unit

/-- The characters of one input line: everything before the first newline
(the terminating newline itself is consumed and dropped, as `input()` does). -/
def firstLineChars : List Char → List Char
  | [] => []
  | c :: cs => if c = '\n' then [] else c :: firstLineChars cs

/-- The line `input()` returns for a given standard-input stream. -/
def inputLine (stdin : String) : String :=
  ⟨firstLineChars stdin.data⟩

/-- Python's `input()`: at end of file it raises `EOFError`; otherwise it
returns the first line with its terminating newline stripped. -/
def pyInput (stdin : String) : Except Fault String :=
  if stdin = "" then .error .eofError
  else .ok (inputLine stdin)

/-- The external library's constructor `genai.Client()`: called with no
explicit key argument it binds the new client to the `GEMINI_API_KEY`
environment variable; construction itself may fault (oracle `ctorFault`). -/
def genaiClient (env : Env) (ctorFault : Option String) : Except Fault Client :=
  match ctorFault with
  | some e => .error (.clientError e)
  | none => .ok ⟨env "GEMINI_API_KEY"⟩

/-- Update one file of a filesystem. -/
def updateFS (fs : FS) (name contents : String) : FS :=
  fun n => if n = name then some contents else fs n

/-- The whole script, statement by statement in source order.  A fault at
any step stops execution there: later statements do not run, and the
fault is the run's result.  The `with open("content.md", "w")` truncates
the file before `write` runs, so a fault at the write step leaves the file
present and empty. -/
def run (w : World) (fs0 : FS) : RunOutcome :=
  -- api = os.environ.get("GEMINI_API_KEY"); print(api)
  let api := w.env "GEMINI_API_KEY"
  let out : List (Option String) := [api]
  -- client = genai.Client()
  match genaiClient w.env w.ctorFault with
  | .error f => ⟨out, none, fs0, .error f⟩
  | .ok client =>
    -- prompt = input()
    match pyInput w.stdin with
    | .error f => ⟨out, none, fs0, .error f⟩
    | .ok prompt =>
      -- response = client.models.generate_content(model=..., contents=prompt)
      let req : Request := ⟨"gemini-2.5-flash", prompt⟩
      match w.remote client req with
      | .error e => ⟨out, some (client, req), fs0, .error (.networkError e)⟩
      | .ok response =>
        -- with open("content.md", "w") as file: file.write(response.text)
        match response.text with
        | none => ⟨out, some (client, req), updateFS fs0 "content.md" "", .error .typeError⟩
        | some t =>
          if w.writeFault then
            ⟨out, some (client, req), updateFS fs0 "content.md" "", .error .writeError⟩
          else
            ⟨out, some (client, req), updateFS fs0 "content.md" t, .ok ()⟩

/-- Process exit status: zero on normal completion, nonzero on an
uncaught fault. -/
def exitCode (o : RunOutcome) : Nat :=
  match o.result with
  | .ok _ => 0
  | .error _ => 1

/-! Helper lemmas, shared by the claim theorems below. -/

/-- The first line of the input contains no newline character. -/
theorem newline_not_mem_firstLineChars : ∀ l : List Char, '\n' ∉ firstLineChars l := by
  intro l
  induction l with
  | nil => simp [firstLineChars]
  | cons c cs ih =>
    simp only [firstLineChars]
    by_cases hc : c = '\n'
    · simp [hc]
    · simp only [if_neg hc, List.mem_cons]
      rintro (h | h)
      · exact hc h.symm
      · exact ih h

/-- A list not containing a character does not end with it. -/
theorem getLast?_ne_of_not_mem {a : Char} {l : List Char} (h : a ∉ l) :
    l.getLast? ≠ some a := by
  intro hlast
  rcases List.mem_getLast?_eq_getLast (Option.mem_def.2 hlast) with ⟨hne, heq⟩
  exact h (heq ▸ List.getLast_mem hne)

/-- Full characterization of a run on which every step succeeds and the
remote service answers with text `t`. -/
theorem run_ok (w : World) (fs0 : FS) (t : String)
    (hc : w.ctorFault = none) (hs : w.stdin ≠ "")
    (hr : ∀ c r, w.remote c r = .ok ⟨some t⟩)
    (hw : w.writeFault = false) :
    run w fs0 =
      ⟨[w.env "GEMINI_API_KEY"],
       some (⟨w.env "GEMINI_API_KEY"⟩, ⟨"gemini-2.5-flash", inputLine w.stdin⟩),
       updateFS fs0 "content.md" t,
       .ok ()⟩ := by
  simp [run, genaiClient, pyInput, hc, hs, hr, hw]

/-- Once client construction and `input()` succeed, `generate_content` is
invoked — whatever the remote then does — on the client bound to the
environment credential, with the fixed model and the stripped input line. -/
theorem run_submitted_eq (w : World) (fs0 : FS)
    (hc : w.ctorFault = none) (hs : w.stdin ≠ "") :
    (run w fs0).submitted =
      some (⟨w.env "GEMINI_API_KEY"⟩, ⟨"gemini-2.5-flash", inputLine w.stdin⟩) := by
  simp only [run, genaiClient, pyInput, hc, hs, if_false]
  rcases h : w.remote ⟨w.env "GEMINI_API_KEY"⟩ ⟨"gemini-2.5-flash", inputLine w.stdin⟩ with e | resp
  · rfl
  · rcases ht : resp.text with _ | t
    · simp [ht]
    · rcases hw : w.writeFault <;> simp [ht]

/-- Either execution dies before `generate_content`, or the submitted
request is exactly the (client, fixed model, stripped line) triple. -/
theorem run_submitted_cases (w : World) (fs0 : FS) :
    (run w fs0).submitted = none ∨
    (run w fs0).submitted =
      some (⟨w.env "GEMINI_API_KEY"⟩, ⟨"gemini-2.5-flash", inputLine w.stdin⟩) := by
  rcases hc : w.ctorFault with _ | e
  · by_cases hs : w.stdin = ""
    · left; simp [run, genaiClient, pyInput, hc, hs]
    · right; exact run_submitted_eq w fs0 hc hs
  · left; simp [run, genaiClient, hc]

/-- Whatever else happens, standard output holds exactly one printed value:
the credential looked up in the environment (`print(api)` runs first). -/
theorem run_stdout (w : World) (fs0 : FS) :
    (run w fs0).stdout = [w.env "GEMINI_API_KEY"] := by
  rcases hc : w.ctorFault with _ | e
  · by_cases hs : w.stdin = ""
    · simp [run, genaiClient, pyInput, hc, hs]
    · simp only [run, genaiClient, pyInput, hc, hs, if_false]
      rcases h : w.remote ⟨w.env "GEMINI_API_KEY"⟩ ⟨"gemini-2.5-flash", inputLine w.stdin⟩
        with e | resp
      · rfl
      · rcases ht : resp.text with _ | t
        · simp [ht]
        · rcases hw : w.writeFault <;> simp [ht]
  · simp [run, genaiClient, hc]

/-- Every file other than `content.md` comes out of a run unchanged. -/
theorem run_fs_frame (w : World) (fs0 : FS) (name : String)
    (hn : name ≠ "content.md") :
    (run w fs0).fs name = fs0 name := by
  rcases hc : w.ctorFault with _ | e
  · by_cases hs : w.stdin = ""
    · simp [run, genaiClient, pyInput, hc, hs]
    · simp only [run, genaiClient, pyInput, hc, hs, if_false]
      rcases h : w.remote ⟨w.env "GEMINI_API_KEY"⟩ ⟨"gemini-2.5-flash", inputLine w.stdin⟩
        with e | resp
      · rfl
      · rcases ht : resp.text with _ | t
        · simp [ht, updateFS, hn]
        · rcases hw : w.writeFault <;> simp [ht, updateFS, hn]
  · simp [run, genaiClient, hc]

/-- Apart from the write to `content.md`, a run neither depends on nor
inspects the initial filesystem: printed output, the submitted request and
the result are the same over any two initial filesystems. -/
theorem run_fs_indep (w : World) (fs0 fs1 : FS) :
    (run w fs0).stdout = (run w fs1).stdout ∧
    (run w fs0).submitted = (run w fs1).submitted ∧
    (run w fs0).result = (run w fs1).result := by
  rcases hc : w.ctorFault with _ | e
  · by_cases hs : w.stdin = ""
    · simp [run, genaiClient, pyInput, hc, hs]
    · simp only [run, genaiClient, pyInput, hc, hs, if_false]
      rcases h : w.remote ⟨w.env "GEMINI_API_KEY"⟩ ⟨"gemini-2.5-flash", inputLine w.stdin⟩
        with e | resp
      · exact ⟨rfl, rfl, rfl⟩
      · rcases ht : resp.text with _ | t
        · simp [ht]
        · rcases hw : w.writeFault <;> simp [ht]
  · simp [run, genaiClient, hc]

/-! The claims. -/

/-- C1: for every fixed credential, prompt and remote response, a run
leaves `content.md` holding exactly the remote response's text, and the
process completes normally; instantiated at the empty response text this
gives an empty (zero-byte) file, not a placeholder string. -/
theorem written_file_equals_response_text (w : World) (fs0 : FS) (t : String)
    (hc : w.ctorFault = none) (hs : w.stdin ≠ "")
    (hr : ∀ c r, w.remote c r = .ok ⟨some t⟩)
    (hw : w.writeFault = false) :
    (run w fs0).fs "content.md" = some t ∧ (run w fs0).result = .ok () := by
  rw [run_ok w fs0 t hc hs hr hw]
  simp [updateFS]

/-- C1 witness: with the mocked remote returning the empty text body, the
written `content.md` is the empty string. -/
theorem written_file_equals_response_text_witness :
    (run ⟨fun _ => some "key", "hi\n", none, fun _ _ => .ok ⟨some ""⟩, false⟩
        (fun _ => none)).fs "content.md" = some "" :=
  (written_file_equals_response_text
    ⟨fun _ => some "key", "hi\n", none, fun _ _ => .ok ⟨some ""⟩, false⟩
    (fun _ => none) "" rfl (by decide) (fun _ _ => rfl) rfl).1

/-- C2: running the relay twice, the first run writes its own text `t1`,
and after the second run `content.md` holds only the second text `t2`:
the `"w"` open truncates, so with `t1 ≠ t2` nothing of the first run's
content survives. -/
theorem second_run_replaces_first (w1 w2 : World) (fs0 : FS) (t1 t2 : String)
    (h1c : w1.ctorFault = none) (h1s : w1.stdin ≠ "")
    (h1r : ∀ c r, w1.remote c r = .ok ⟨some t1⟩) (h1w : w1.writeFault = false)
    (h2c : w2.ctorFault = none) (h2s : w2.stdin ≠ "")
    (h2r : ∀ c r, w2.remote c r = .ok ⟨some t2⟩) (h2w : w2.writeFault = false) :
    (run w1 fs0).fs "content.md" = some t1 ∧
    (run w2 (run w1 fs0).fs).fs "content.md" = some t2 ∧
    (t1 ≠ t2 → (run w2 (run w1 fs0).fs).fs "content.md" ≠ some t1) := by
  have e1 := run_ok w1 fs0 t1 h1c h1s h1r h1w
  have e2 := run_ok w2 (run w1 fs0).fs t2 h2c h2s h2r h2w
  refine ⟨?_, ?_, ?_⟩
  · rw [e1]; simp [updateFS]
  · rw [e2]; simp [updateFS]
  · intro hne hh
    rw [e2] at hh
    simp only [updateFS] at hh
    rw [if_true] at hh
    exact hne (Option.some.inj hh).symm

/-- C2 witness: first run writes "first", a second run with a different
prompt leaves only "second". -/
theorem second_run_replaces_first_witness :
    (run ⟨fun _ => some "key", "b\n", none, fun _ _ => .ok ⟨some "second"⟩, false⟩
        (run ⟨fun _ => some "key", "a\n", none, fun _ _ => .ok ⟨some "first"⟩, false⟩
          (fun _ => none)).fs).fs "content.md" = some "second" :=
  (second_run_replaces_first
    ⟨fun _ => some "key", "a\n", none, fun _ _ => .ok ⟨some "first"⟩, false⟩
    ⟨fun _ => some "key", "b\n", none, fun _ _ => .ok ⟨some "second"⟩, false⟩
    (fun _ => none) "first" "second"
    rfl (by decide) (fun _ _ => rfl) rfl
    rfl (by decide) (fun _ _ => rfl) rfl).2.1

/-- C3: with the credential variable unset, the single value the run
prints to standard output is the absent value (`os.environ.get` returned
`None`); the equation holds for every world, so in particular for every
failing run — the print precedes any failure. -/
theorem unset_credential_prints_absent_value (w : World) (fs0 : FS)
    (h : w.env "GEMINI_API_KEY" = none) :
    (run w fs0).stdout = [none] := by
  rw [run_stdout, h]

/-- C3 witness: a run whose client construction faults still printed the
absent credential first. -/
theorem unset_credential_prints_absent_value_witness :
    (run ⟨fun _ => none, "", some "no credential", fun _ _ => .error "down", true⟩
        (fun _ => none)).stdout = [none] :=
  unset_credential_prints_absent_value
    ⟨fun _ => none, "", some "no credential", fun _ _ => .error "down", true⟩
    (fun _ => none) rfl

/-- C4: whenever execution reaches the generation call, the call is made
on a client bound to the credential read from `GEMINI_API_KEY` (the
library constructor reads the same environment variable the script read),
and the request names the fixed model `gemini-2.5-flash` with the line
read from standard input as its contents. -/
theorem client_bound_and_request_named (w : World) (fs0 : FS)
    (hc : w.ctorFault = none) (hs : w.stdin ≠ "") :
    (run w fs0).submitted =
      some (⟨w.env "GEMINI_API_KEY"⟩, ⟨"gemini-2.5-flash", inputLine w.stdin⟩) :=
  run_submitted_eq w fs0 hc hs

/-- C4 witness: at a concrete credential and prompt, the submitted pair is
the credential-bound client and the fixed-model request. -/
theorem client_bound_and_request_named_witness :
    (run ⟨fun _ => some "secret", "ask\n", none, fun _ _ => .error "x", false⟩
        (fun _ => none)).submitted =
      some (⟨some "secret"⟩, ⟨"gemini-2.5-flash", "ask"⟩) := by
  have h := client_bound_and_request_named
    ⟨fun _ => some "secret", "ask\n", none, fun _ _ => .error "x", false⟩
    (fun _ => none) rfl (by decide)
  rw [h]
  decide

/-- C5: an empty line read from standard input is passed through
unchanged: the remote call receives the empty content string. -/
theorem empty_prompt_passed_through (w : World) (fs0 : FS)
    (hc : w.ctorFault = none) (hs : w.stdin ≠ "")
    (he : inputLine w.stdin = "") :
    (run w fs0).submitted =
      some (⟨w.env "GEMINI_API_KEY"⟩, ⟨"gemini-2.5-flash", ""⟩) := by
  rw [run_submitted_eq w fs0 hc hs, he]

/-- C5 witness: standard input consisting of one empty line yields a
request with empty contents. -/
theorem empty_prompt_passed_through_witness :
    (run ⟨fun _ => some "key", "\n", none, fun _ _ => .ok ⟨some "t"⟩, false⟩
        (fun _ => none)).submitted =
      some (⟨some "key"⟩, ⟨"gemini-2.5-flash", ""⟩) :=
  empty_prompt_passed_through
    ⟨fun _ => some "key", "\n", none, fun _ _ => .ok ⟨some "t"⟩, false⟩
    (fun _ => none) rfl (by decide) (by decide)

/-- C6: when the remote response's `text` payload is absent, the run
faults at the file-write step with the `TypeError` of `file.write(None)`:
the request had already been submitted, the `"w"` open had already
truncated `content.md` to empty, and no null-check intervened. -/
theorem absent_response_text_faults_at_write (w : World) (fs0 : FS)
    (hc : w.ctorFault = none) (hs : w.stdin ≠ "")
    (hr : ∀ c r, w.remote c r = .ok ⟨none⟩) :
    (run w fs0).result = .error .typeError ∧
    (run w fs0).submitted ≠ none ∧
    (run w fs0).fs "content.md" = some "" := by
  simp only [run, genaiClient, pyInput, hc, hs, if_false, hr]
  simp [updateFS]

/-- C6 witness: a concrete run whose mocked response carries no text dies
with the write-step type fault. -/
theorem absent_response_text_faults_at_write_witness :
    (run ⟨fun _ => some "key", "q\n", none, fun _ _ => .ok ⟨none⟩, false⟩
        (fun _ => none)).result = .error .typeError :=
  (absent_response_text_faults_at_write
    ⟨fun _ => some "key", "q\n", none, fun _ _ => .ok ⟨none⟩, false⟩
    (fun _ => none) rfl (by decide) (fun _ _ => rfl)).1

/-- C7: no failure is caught anywhere.  Each failure mode — client
construction fault, end of standard input, network/service failure, an
absent response payload, a faulting file write — makes the run's result
that very fault (the process exits abnormally, with nonzero status), and
no step after the failing one executes: an early fault leaves the request
unsubmitted and the filesystem untouched. -/
theorem faults_propagate_unhandled (w : World) (fs0 : FS) :
    (∀ e, w.ctorFault = some e →
        (run w fs0).result = .error (.clientError e) ∧
        (run w fs0).submitted = none ∧ (run w fs0).fs = fs0) ∧
    (w.ctorFault = none → w.stdin = "" →
        (run w fs0).result = .error .eofError ∧
        (run w fs0).submitted = none ∧ (run w fs0).fs = fs0) ∧
    (∀ e, w.ctorFault = none → w.stdin ≠ "" →
        (∀ c r, w.remote c r = .error e) →
        (run w fs0).result = .error (.networkError e) ∧ (run w fs0).fs = fs0) ∧
    (w.ctorFault = none → w.stdin ≠ "" →
        (∀ c r, w.remote c r = .ok ⟨none⟩) →
        (run w fs0).result = .error .typeError) ∧
    (∀ t, w.ctorFault = none → w.stdin ≠ "" →
        (∀ c r, w.remote c r = .ok ⟨some t⟩) → w.writeFault = true →
        (run w fs0).result = .error .writeError) ∧
    (∀ f, (run w fs0).result = .error f → exitCode (run w fs0) ≠ 0) := by
  refine ⟨?_, ?_, ?_, ?_, ?_, ?_⟩
  · intro e hc
    simp [run, genaiClient, hc]
  · intro hc hs
    simp [run, genaiClient, pyInput, hc, hs]
  · intro e hc hs hr
    simp [run, genaiClient, pyInput, hc, hs, hr]
  · intro hc hs hr
    simp [run, genaiClient, pyInput, hc, hs, hr]
  · intro t hc hs hr hw
    simp [run, genaiClient, pyInput, hc, hs, hr, hw]
  · intro f h
    simp [exitCode, h]

/-- C7 witness: a concrete construction fault is the run's result,
untouched by any handler. -/
theorem faults_propagate_unhandled_witness :
    (run ⟨fun _ => some "key", "p\n", some "boom", fun _ _ => .ok ⟨some "t"⟩, false⟩
        (fun _ => none)).result = .error (.clientError "boom") :=
  ((faults_propagate_unhandled
    ⟨fun _ => some "key", "p\n", some "boom", fun _ _ => .ok ⟨some "t"⟩, false⟩
    (fun _ => none)).1 "boom" rfl).1

/-- C8: the only file a run can touch is `content.md`: every other name
maps to its old contents afterwards; and the run reads no file at all —
its printed output, submitted request and result are identical over any
two initial filesystems. -/
theorem only_content_md_touched (w : World) (fs0 : FS) :
    (∀ name, name ≠ "content.md" → (run w fs0).fs name = fs0 name) ∧
    (∀ fs1 : FS,
      (run w fs0).stdout = (run w fs1).stdout ∧
      (run w fs0).submitted = (run w fs1).submitted ∧
      (run w fs0).result = (run w fs1).result) :=
  ⟨fun name hn => run_fs_frame w fs0 name hn, fun fs1 => run_fs_indep w fs0 fs1⟩

/-- C8 witness: a pre-existing unrelated file survives a successful run
with its contents intact. -/
theorem only_content_md_touched_witness :
    (run ⟨fun _ => some "key", "p\n", none, fun _ _ => .ok ⟨some "t"⟩, false⟩
        (fun n => if n = "other.txt" then some "keep" else none)).fs "other.txt"
      = some "keep" :=
  (only_content_md_touched
    ⟨fun _ => some "key", "p\n", none, fun _ _ => .ok ⟨some "t"⟩, false⟩
    (fun n => if n = "other.txt" then some "keep" else none)).1
    "other.txt" (by decide)

/-- C9: a fault at any step before the file write — construction of the
client, `input()`, or the generation call, i.e. any fault other than the
write-step faults — leaves the filesystem exactly as it was: `content.md`
is never opened, created or modified. -/
theorem prewrite_failure_leaves_fs_unchanged (w : World) (fs0 : FS) (f : Fault)
    (h : (run w fs0).result = .error f)
    (ht : f ≠ .typeError) (hw : f ≠ .writeError) :
    (run w fs0).fs = fs0 := by
  rcases hc : w.ctorFault with _ | e
  · by_cases hs : w.stdin = ""
    · simp [run, genaiClient, pyInput, hc, hs]
    · simp only [run, genaiClient, pyInput, hc, hs, if_false] at h ⊢
      rcases hrem : w.remote ⟨w.env "GEMINI_API_KEY"⟩ ⟨"gemini-2.5-flash", inputLine w.stdin⟩
        with e | resp
      · simp [hrem]
      · rcases htxt : resp.text with _ | t
        · rw [hrem] at h
          simp [htxt] at h
          exact absurd h.symm ht
        · rcases hwf : w.writeFault
          · rw [hrem] at h
            simp [htxt, hwf] at h
          · rw [hrem] at h
            simp [htxt, hwf] at h
            exact absurd h.symm hw
  · simp [run, genaiClient, hc]

/-- C9 witness: after a network failure the filesystem is unchanged. -/
theorem prewrite_failure_leaves_fs_unchanged_witness :
    (run ⟨fun _ => some "key", "p\n", none, fun _ _ => .error "net down", false⟩
        (fun _ => none)).fs = (fun _ => none) :=
  prewrite_failure_leaves_fs_unchanged
    ⟨fun _ => some "key", "p\n", none, fun _ _ => .error "net down", false⟩
    (fun _ => none) (.networkError "net down") rfl (by decide) (by decide)

/-- C10: whatever request reaches the remote service, its contents are
the input line with the terminating newline stripped by `input()`: the
contents contain no newline character, so in particular they never end
with the newline that terminated the line. -/
theorem prompt_newline_stripped (w : World) (fs0 : FS) (cl : Client) (req : Request)
    (h : (run w fs0).submitted = some (cl, req)) :
    '\n' ∉ req.contents.data ∧ req.contents.data.getLast? ≠ some '\n' := by
  rcases run_submitted_cases w fs0 with hn | he
  · rw [hn] at h
    exact absurd h (by simp)
  · rw [he] at h
    injection h with h2
    injection h2 with hcl hreq
    constructor
    · rw [← hreq]
      exact newline_not_mem_firstLineChars _
    · rw [← hreq]
      exact getLast?_ne_of_not_mem (newline_not_mem_firstLineChars _)

/-- C10 witness: the request a concrete run submits for the input line
"hi" followed by a newline carries contents "hi", which do not end in a
newline. -/
theorem prompt_newline_stripped_witness :
    '\n' ∉ ("hi" : String).data ∧ ("hi" : String).data.getLast? ≠ some '\n' :=
  prompt_newline_stripped
    ⟨fun _ => some "key", "hi\n", none, fun _ _ => .ok ⟨some "t"⟩, false⟩
    (fun _ => none) ⟨some "key"⟩ ⟨"gemini-2.5-flash", "hi"⟩ (by decide)

end PromptRelay
